import Mathlib

/-!
Shallow embedding of the CrediScore fraud-detection service
(`src/backend/fraud-detection-service/main.py`) and proofs of the frozen
claims about it.

Python strings are modelled as Lean `String` (with `List Char` internals),
Python floats as exact rationals `ℚ` (the float divisions and thresholds in
this program never hinge on binary-float rounding in the claims below),
Python ints as `Int`/`Nat`, Python `None`-able fields as `Option`, and an
uncaught Python exception as `Except.error` carrying the message.
`datetime.now()` is modelled by an injectable naive wall-clock timestamp
`now : Int` (seconds).  ASCII text is assumed throughout (what the service receives); `str.lower`, `\w`, `\d` and whitespace are modelled on the ASCII
fragment.
-/

namespace CrediScore

/-- Model of Python `str.lower()` (ASCII fragment). -/
def pyLower (s : String) : String := ⟨s.data.map Char.toLower⟩

/-- Model of Python `str.strip()`: drop leading and trailing whitespace. -/
def pyStrip (s : String) : String :=
  ⟨((s.data.dropWhile Char.isWhitespace).reverse.dropWhile Char.isWhitespace).reverse⟩

/-- Helper for `pySplitWs`: the accumulator holds the current word reversed. -/
def pySplitWsGo : List Char → List Char → List (List Char)
  | acc, [] => if acc.isEmpty then [] else [acc.reverse]
  | acc, c :: cs =>
    if Char.isWhitespace c then
      (if acc.isEmpty then pySplitWsGo [] cs else acc.reverse :: pySplitWsGo [] cs)
    else pySplitWsGo (c :: acc) cs

/-- Model of Python `str.split()` with no argument: split on whitespace runs,
dropping empty pieces. -/
def pySplitWs (s : String) : List (List Char) := pySplitWsGo [] s.data

/-- Model of Python `str.split(sep)` for a single-character separator. -/
def pySplitOn (sep : Char) : List Char → List (List Char)
  | [] => [[]]
  | c :: cs =>
    if c = sep then [] :: pySplitOn sep cs
    else
      match pySplitOn sep cs with
      | [] => [[c]]
      | w :: ws => (c :: w) :: ws

/-- Substring containment (Python `needle in hay`). -/
def containsSub (needle hay : List Char) : Bool :=
  hay.tails.any (fun t => needle.isPrefixOf t)

/-- Python regex `\w` on the ASCII fragment: letters, digits, underscore. -/
def isWordChar (c : Char) : Bool := c.isAlphanum || c == '_'

/-- Case-insensitive literal match of `w` (given lower-cased) at the head of
`text`, requiring a `\b` word boundary after the match.  All alternatives in
the modelled regexes start and end with word characters. -/
def matchWordAt : List Char → List Char → Bool
  | [], [] => true
  | [], c :: _ => !isWordChar c
  | _ :: _, [] => false
  | a :: w, c :: t => (Char.toLower c = a) && matchWordAt w t

/-- Scan for a `\b(w1|...|wk)\b`-style match anywhere in the text;
`prevWord` records whether the previous character was a word character
(so that the leading `\b` holds exactly when it is `false`). -/
def wordAltSearch (ws : List (List Char)) : Bool → List Char → Bool
  | _, [] => false
  | prevWord, c :: rest =>
    (!prevWord && ws.any (fun w => matchWordAt w (c :: rest)))
      || wordAltSearch ws (isWordChar c) rest

/-- Matcher for the regexes of shape `\b(alt1|alt2|...)\b` with
`re.IGNORECASE` (the five `SUSPICIOUS_PATTERNS`). -/
def altPat (ws : List String) (t : String) : Bool :=
  wordAltSearch (ws.map String.data) false t.data

/-- Search (as `re.search`) for a run of at least `k` consecutive characters satisfying
`p` (regexes like `[A-Z]{3,}` written `[A-Z]\x7b3,\x7d`). -/
def hasRunGe (p : Char → Bool) (k : Nat) (cs : List Char) : Bool :=
  cs.tails.any (fun t => (t.take k).length = k && (t.take k).all p)

/-!  ## Levenshtein distance (`levenshtein_distance`, main.py lines 226-246)

The source fills a `(len str1 + 1) × (len str2 + 1)` matrix with
`matrix[i][0] = i`, `matrix[0][j] = j` and
`matrix[i][j] = matrix[i-1][j-1]` on a character match, else
`min(matrix[i-1][j] + 1, matrix[i][j-1] + 1, matrix[i-1][j-1] + 1)`.
`levCell s t i j` is the value of `matrix[i][j]`; the character accesses
`str1[i-1]` / `str2[j-1]` become `s.getD (i-1)` / `t.getD (j-1)`
(always in range for the cells the top-level call reaches). -/

def levCell (s t : List Char) : Nat → Nat → Nat
  | 0, j => j
  | i + 1, 0 => i + 1
  | i + 1, j + 1 =>
    if s.getD i ' ' = t.getD j ' ' then levCell s t i j
    else
      min (levCell s t i (j + 1) + 1)
        (min (levCell s t (i + 1) j + 1) (levCell s t i j + 1))

/-- Function `levenshtein_distance(str1, str2)`: the bottom-right matrix cell. -/
def levenshtein_distance (a b : String) : Nat :=
  levCell a.data b.data a.data.length b.data.length

/-- The `longer` string as picked in `calculate_string_similarity` (main.py line 217):
first argument wins ties only when strictly longer. -/
def pyLonger (s1 s2 : String) : String := if s1.length > s2.length then s1 else s2

/-- The `shorter` string as picked in `calculate_string_similarity` (main.py line 218). -/
def pyShorter (s1 s2 : String) : String := if s1.length > s2.length then s2 else s1

/-- Function `calculate_string_similarity` (main.py lines 212-224): empty guard,
dead `len(longer) == 0` branch, then `(len(longer) - distance) / len(longer)`. -/
def calculate_string_similarity (str1 str2 : String) : ℚ :=
  if str1 = "" ∨ str2 = "" then 0
  else if (pyLonger str1 str2).length = 0 then 1
  else (((pyLonger str1 str2).length : ℚ)
      - (levenshtein_distance (pyLonger str1 str2) (pyShorter str1 str2) : ℚ))
      / ((pyLonger str1 str2).length : ℚ)

/-!  ## Pattern tables (main.py lines 57-71)

Each entry pairs the literal regex source (used verbatim in reason strings)
with an executable matcher modelling `re.search` of that regex.  The five
`SUSPICIOUS_PATTERNS` are searched with `re.IGNORECASE`, the five
`SPAM_INDICATORS` case-sensitively. -/

def SUSPICIOUS_PATTERNS : List (String × (String → Bool)) :=
  [ ("\\b(fake|scam|fraud|cheat|steal|rob)\\b",
      altPat ["fake", "scam", "fraud", "cheat", "steal", "rob"]),
    ("\\b(too good to be true|amazing|incredible|perfect)\\b",
      altPat ["too good to be true", "amazing", "incredible", "perfect"]),
    ("\\b(avoid|stay away|don\\\x27t go|terrible|awful|horrible)\\b",
      altPat ["avoid", "stay away", "don\x27t go", "terrible", "awful", "horrible"]),
    ("\\b(paid review|sponsored|advertisement)\\b",
      altPat ["paid review", "sponsored", "advertisement"]),
    ("\\b(click here|visit|call now|limited time)\\b",
      altPat ["click here", "visit", "call now", "limited time"]) ]

def SPAM_INDICATORS : List (String × (String → Bool)) :=
  [ ("[A-Z]\x7b3,\x7d", fun t => hasRunGe (fun c => 'A' ≤ c && c ≤ 'Z') 3 t.data),
    ("!\x7b3,\x7d", fun t => hasRunGe (fun c => c == '!') 3 t.data),
    ("\\$+", fun t => t.data.any (fun c => c == '$')),
    ("www\\.|http",
      fun t => containsSub "www.".data t.data || containsSub "http".data t.data),
    ("\\d\x7b10,\x7d", fun t => hasRunGe Char.isDigit 10 t.data) ]

/-- Function `calculate_text_quality_score` (main.py lines 73-114).  The float
accumulator is modelled in `ℚ`; `0.7` is modelled as the exact `7/10`
(no claim depends on the binary-float value of the threshold). -/
def calculate_text_quality_score (text : String) : ℚ :=
  if text = "" ∨ (pyStrip text).length < 10 then 0
  else
    let length := text.length
    let lengthScore : ℚ :=
      if 50 ≤ length ∧ length ≤ 200 then 30
      else if (20 ≤ length ∧ length < 50) ∨ (200 < length ∧ length ≤ 500) then 20
      else 10
    let sentenceScore : ℚ := if (pySplitOn '.' text.data).length > 1 then 20 else 0
    let words := pySplitWs (pyLower text)
    let varietyScore : ℚ :=
      if (words.eraseDups.length : ℚ) > (words.length : ℚ) * (7 / 10) then 20 else 0
    let punctScore : ℚ :=
      if ['.', '!', '?'].any (fun p => text.data.contains p) then 10 else 0
    let suspPenalty : ℚ :=
      15 * ((SUSPICIOUS_PATTERNS.filter (fun pr => pr.2 text)).length : ℚ)
    let spamPenalty : ℚ :=
      10 * ((SPAM_INDICATORS.filter (fun pr => pr.2 text)).length : ℚ)
    let score := lengthScore + sentenceScore + varietyScore + punctScore
      - suspPenalty - spamPenalty
    max 0 (min 100 score)

/-- Result record of `analyze_review_sentiment`. -/
structure Sentiment where
  positive : ℚ
  negative : ℚ
  neutral : ℚ
deriving DecidableEq, Repr

def positive_words : List String :=
  ["good", "great", "excellent", "amazing", "wonderful", "fantastic", "love", "best"]

def negative_words : List String :=
  ["bad", "terrible", "awful", "horrible", "worst", "hate", "disgusting", "disappointed"]

/-- Function `analyze_review_sentiment` (main.py lines 116-137): substring-containment
counts over the lower-cased text, divided by the whitespace token count. -/
def analyze_review_sentiment (text : String) : Sentiment :=
  let text_lower := pyLower text
  let positive_count :=
    (positive_words.filter (fun w => containsSub w.data text_lower.data)).length
  let negative_count :=
    (negative_words.filter (fun w => containsSub w.data text_lower.data)).length
  let total_words := (pySplitWs text).length
  if total_words = 0 then ⟨0, 0, 1⟩
  else
    let positive_score : ℚ := (positive_count : ℚ) / (total_words : ℚ)
    let negative_score : ℚ := (negative_count : ℚ) / (total_words : ℚ)
    ⟨positive_score, negative_score, max 0 (1 - positive_score - negative_score)⟩

def generic_phrases : List String :=
  ["good service", "nice place", "would recommend", "great experience",
   "bad service", "terrible experience", "would not recommend"]

/-- Function `detect_review_patterns` (main.py lines 139-173): repetition check
(token count > 10, max frequency > 0.3 × count), then one reason per
matching suspicious pattern, one per matching spam indicator, and at most
one generic-phrases reason. -/
def detect_review_patterns (text : String) : List String :=
  let words := pySplitWs (pyLower text)
  let repetition :=
    if words.length > 10 then
      let max_freq := (words.map (fun w => words.count w)).foldr max 0
      if (max_freq : ℚ) > (words.length : ℚ) * (3 / 10) then
        ["Excessive word repetition"]
      else []
    else []
  let suspicious := SUSPICIOUS_PATTERNS.filterMap (fun pr =>
    if pr.2 text then some ("Suspicious language pattern: " ++ pr.1) else none)
  let spam := SPAM_INDICATORS.filterMap (fun pr =>
    if pr.2 text then some ("Spam indicator: " ++ pr.1) else none)
  let generic :=
    if generic_phrases.any (fun ph => containsSub ph.data (pyLower text).data) then
      ["Generic review phrases"]
    else []
  repetition ++ suspicious ++ spam ++ generic

/-- Left-pad a digit string with zeros to width `d`. -/
def padZeros (s : String) (d : Nat) : String :=
  ⟨List.replicate (d - s.length) '0' ++ s.data⟩

/-- Model of Python fixed-point formatting with `d` decimals (round half up;
Python rounds the underlying binary half to even — the difference is never
observable in any claim, which only compare whole reason strings built from
distinct constant prefixes). -/
def formatFixed (q : ℚ) (d : Nat) : String :=
  let scaled : Int := Int.floor (q * (10 : ℚ) ^ d + 1 / 2)
  let sign := if scaled < 0 then "-" else ""
  let n := scaled.natAbs
  let ip := n / 10 ^ d
  let fp := n % 10 ^ d
  if d = 0 then sign ++ toString ip
  else sign ++ toString ip ++ "." ++ padZeros (toString fp) d

/-!  ## Data model (main.py lines 24-50) -/

/-- Structure `ReceiptData` (pydantic): all fields optional except `confidence`
(default `0.0`).  `None` is `none`; an extracted-but-empty string is
`some ""` (falsy in the Python truthiness tests below, like `None`). -/
structure ReceiptData where
  businessName : Option String := none
  businessAddress : Option String := none
  businessPhone : Option String := none
  amount : Option ℚ := none
  date : Option String := none
  items : Option (List String) := none
  receiptNumber : Option String := none
  confidence : ℚ := 0
deriving DecidableEq, Repr, Inhabited

structure BusinessDetails where
  name : String
  address : Option String := none
  phone : Option String := none
  email : Option String := none
deriving DecidableEq, Repr, Inhabited

structure FraudDetectionRequest where
  review_text : String
  receipt_data : ReceiptData
  business_details : BusinessDetails
  user_reputation : Int
deriving DecidableEq, Repr, Inhabited

structure FraudDetectionResponse where
  isFraudulent : Bool
  confidence : ℚ
  fraudReasons : List String
  riskScore : Nat
deriving DecidableEq, Repr, Inhabited

/-!  ## Python `datetime` model

`datetime.fromisoformat` is Python standard library, not repository code;
it is modelled executably on the fragment the service exercises:
`YYYY-MM-DD`, optionally followed by one separator character and
`HH`, `HH:MM` or `HH:MM:SS`, optionally followed by a UTC offset
`+HH:MM` / `-HH:MM` (fractional seconds omitted).  A datetime is a naive
wall-clock timestamp in seconds (proleptic Gregorian, epoch 1970-01-01)
plus an awareness flag; Python raises `TypeError` when an aware datetime is
compared with a naive one, which the model surfaces as `Except.error`. -/

structure PyDatetime where
  ts : Int
  aware : Bool
deriving DecidableEq, Repr

def digitVal (c : Char) : Option Nat :=
  if c.isDigit then some (c.toNat - 48) else none

/-- Parse exactly `n` ASCII digits into `acc`, returning the rest. -/
def parseNDigits : Nat → Nat → List Char → Option (Nat × List Char)
  | 0, acc, cs => some (acc, cs)
  | _ + 1, _, [] => none
  | n + 1, acc, c :: cs =>
    match digitVal c with
    | some v => parseNDigits n (acc * 10 + v) cs
    | none => none

def expectChar (c : Char) : List Char → Option (List Char)
  | [] => none
  | x :: xs => if x = c then some xs else none

def isLeapYear (y : Nat) : Bool :=
  y % 4 == 0 && (y % 100 != 0 || y % 400 == 0)

def daysInMonth (y m : Nat) : Nat :=
  if m == 2 then (if isLeapYear y then 29 else 28)
  else if m == 4 || m == 6 || m == 9 || m == 11 then 30
  else 31

/-- Days since 1970-01-01 of a proleptic-Gregorian civil date
(standard era/year-of-era decomposition). -/
def daysFromCivil (y m d : Int) : Int :=
  let y2 := if m ≤ 2 then y - 1 else y
  let era := Int.fdiv y2 400
  let yoe := y2 - era * 400
  let mp := Int.emod (m + 9) 12
  let doy := Int.fdiv (153 * mp + 2) 5 + d - 1
  let doe := yoe * 365 + Int.fdiv yoe 4 - Int.fdiv yoe 100 + doy
  era * 146097 + doe - 719468

/-- Parse `HH`, `HH:MM` or `HH:MM:SS`; missing parts default to zero. -/
def parseTimePart (cs : List Char) : Option (Nat × Nat × Nat × List Char) := do
  let (h, cs1) ← parseNDigits 2 0 cs
  match cs1 with
  | ':' :: cs2 =>
    let (mi, cs3) ← parseNDigits 2 0 cs2
    match cs3 with
    | ':' :: cs4 =>
      let (s, cs5) ← parseNDigits 2 0 cs4
      some (h, mi, s, cs5)
    | _ => some (h, mi, 0, cs3)
  | _ => some (h, 0, 0, cs1)

/-- Parse the optional trailing UTC offset: end of input means a naive
datetime (`false`), a well-formed `+HH:MM` / `-HH:MM` means an aware one
(`true`), anything else is a `ValueError`. -/
def parseOffsetAware : List Char → Option Bool
  | [] => some false
  | c :: cs =>
    if c = '+' || c = '-' then
      match parseNDigits 2 0 cs with
      | none => none
      | some (oh, cs2) =>
        match expectChar ':' cs2 with
        | none => none
        | some cs3 =>
          match parseNDigits 2 0 cs3 with
          | none => none
          | some (om, cs4) =>
            if cs4.isEmpty && oh ≤ 23 && om ≤ 59 then some true else none
    else none

/-- Model of `datetime.fromisoformat` on the fragment above; `none` is a
`ValueError`. -/
def pyFromISO (s : String) : Option PyDatetime := do
  let cs := s.data
  let (y, cs1) ← parseNDigits 4 0 cs
  let cs2 ← expectChar '-' cs1
  let (m, cs3) ← parseNDigits 2 0 cs2
  let cs4 ← expectChar '-' cs3
  let (d, cs5) ← parseNDigits 2 0 cs4
  if 1 ≤ y ∧ 1 ≤ m ∧ m ≤ 12 ∧ 1 ≤ d ∧ d ≤ daysInMonth y m then
    match cs5 with
    | [] => some ⟨daysFromCivil y m d * 86400, false⟩
    | _sep :: rest => do
      let (h, mi, sec, rest2) ← parseTimePart rest
      if h ≤ 23 ∧ mi ≤ 59 ∧ sec ≤ 59 then
        let aware ← parseOffsetAware rest2
        some ⟨daysFromCivil y m d * 86400 + h * 3600 + mi * 60 + sec, aware⟩
      else none
  else none

/-- Python `date.replace('Z', '+00:00')`: every `'Z'` is replaced. -/
def replaceZList : List Char → List Char
  | [] => []
  | 'Z' :: rest => '+' :: '0' :: '0' :: ':' :: '0' :: '0' :: replaceZList rest
  | c :: rest => c :: replaceZList rest

def replaceZ (s : String) : String := ⟨replaceZList s.data⟩

/-!  ## `validate_receipt_consistency` (main.py lines 175-210) -/

/-- Business-name check (main.py lines 179-186).  The Python guard
`if receipt_data.businessName and business_details.name` is truthiness:
`None` and `""` are falsy. -/
def nameIssues (r : ReceiptData) (b : BusinessDetails) : List String :=
  match r.businessName with
  | none => []
  | some rn =>
    if rn ≠ "" ∧ b.name ≠ "" then
      let name_similarity := calculate_string_similarity (pyLower rn) (pyLower b.name)
      if name_similarity < 7 / 10 then
        ["Business name mismatch (similarity: " ++ formatFixed name_similarity 2 ++ ")"]
      else []
    else []

/-- Address check (main.py lines 188-194). -/
def addressIssues (r : ReceiptData) (b : BusinessDetails) : List String :=
  match r.businessAddress, b.address with
  | some ra, some ba =>
    if ra ≠ "" ∧ ba ≠ "" then
      let address_similarity := calculate_string_similarity (pyLower ra) (pyLower ba)
      if address_similarity < 3 / 5 then
        ["Address mismatch (similarity: " ++ formatFixed address_similarity 2 ++ ")"]
      else []
    else []
  | _, _ => []

/-- Amount check (main.py lines 196-197).  The Python guard
`if receipt_data.amount and receipt_data.amount <= 0` is truthiness
followed by the comparison, so `amount == 0.0` (falsy) skips the branch. -/
def amountIssues (r : ReceiptData) : List String :=
  match r.amount with
  | none => []
  | some a => if a ≠ 0 ∧ a ≤ 0 then ["Invalid amount in receipt"] else []

/-- Date check (main.py lines 199-208).  `except ValueError` catches only
the parse failure; comparing the parsed datetime with the naive
`datetime.now()` raises an uncaught `TypeError` when the parsed datetime is
offset-aware (e.g. a trailing `Z` turned into `+00:00`).
`(now - receipt_date).days` is the floor of the difference in days. -/
def dateCheck (r : ReceiptData) (now : Int) : Except String (List String) :=
  match r.date with
  | none => .ok []
  | some ds =>
    if ds = "" then .ok []
    else
      match pyFromISO (replaceZ ds) with
      | none => .ok ["Invalid date format in receipt"]
      | some receipt_date =>
        if receipt_date.aware then
          .error "TypeError: cannot compare offset-naive and offset-aware datetimes"
        else if receipt_date.ts > now then .ok ["Future date in receipt"]
        else if Int.fdiv (now - receipt_date.ts) 86400 > 365 then
          .ok ["Receipt too old (>1 year)"]
        else .ok []

/-- Function `validate_receipt_consistency` (main.py lines 175-210): the four checks
in source order; an uncaught `TypeError` from the date check propagates. -/
def validate_receipt_consistency (r : ReceiptData) (b : BusinessDetails)
    (now : Int) : Except String (List String) :=
  match dateCheck r now with
  | .error e => .error e
  | .ok dateIssues =>
    .ok (nameIssues r b ++ addressIssues r b ++ amountIssues r ++ dateIssues)

/-!  ## `detect_fraud` (main.py lines 256-316)

The aggregator, with `datetime.now()` injected as `now`.  The outer
`try/except Exception` maps any uncaught exception to a single HTTP 500
`"Fraud detection failed: ..."` error with no partial result.  The
`if request.receipt_data:` guard is always true (a pydantic model instance
is truthy), so the receipt block is unconditional. -/
def detect_fraud (request : FraudDetectionRequest) (now : Int) :
    Except String FraudDetectionResponse :=
  let text_quality := calculate_text_quality_score request.review_text
  let qualityReasons :=
    if text_quality < 30 then
      ["Low text quality score: " ++ formatFixed text_quality 1]
    else []
  let qualityScore := if text_quality < 30 then 25 else 0
  let patterns := detect_review_patterns request.review_text
  let sentiment := analyze_review_sentiment request.review_text
  let sentimentReasons :=
    if sentiment.neutral > 4 / 5 then ["Overly neutral sentiment"] else []
  let sentimentScore := if sentiment.neutral > 4 / 5 then 15 else 0
  let reputationReasons :=
    if request.user_reputation < 30 then
      ["Low user reputation: " ++ toString request.user_reputation]
    else []
  let reputationScore := if request.user_reputation < 30 then 20 else 0
  match validate_receipt_consistency request.receipt_data
      request.business_details now with
  | .error e => .error ("Fraud detection failed: " ++ e)
  | .ok receipt_issues =>
    let confReasons :=
      if request.receipt_data.confidence < 1 / 2 then
        ["Low receipt confidence: " ++ formatFixed request.receipt_data.confidence 2]
      else []
    let confScore := if request.receipt_data.confidence < 1 / 2 then 20 else 0
    let fraud_reasons := qualityReasons ++ patterns ++ sentimentReasons
      ++ reputationReasons ++ receipt_issues ++ confReasons
    let risk_score := qualityScore + patterns.length * 10 + sentimentScore
      + reputationScore + receipt_issues.length * 15 + confScore
    .ok { isFraudulent := decide (risk_score > 60),
          confidence := min ((risk_score : ℚ) / 100) 1,
          fraudReasons := fraud_reasons,
          riskScore := risk_score }

/-!  ## Concrete inputs used by the closed theorems below -/

/-- A receipt whose date carries a trailing `Z` (valid ISO-8601 UTC). -/
def zDateReceipt : ReceiptData := { date := some "2024-01-02T00:00:00Z" }

/-- A receipt whose amount was extracted as exactly `0.0`. -/
def zeroAmountReceipt : ReceiptData := { amount := some 0 }

/-- A receipt whose amount was extracted as `-5.0` (spec scenario 5). -/
def negAmountReceipt : ReceiptData := { amount := some (-5) }

def acmeBusiness : BusinessDetails := { name := "Acme Cafe" }

/-- A minimal request (empty review, bare receipt) at reputation `rep`. -/
def plainRequest (rep : Int) : FraudDetectionRequest :=
  ⟨"", {}, acmeBusiness, rep⟩

/-- The response the aggregator produces for `plainRequest rep` at time 0. -/
def plainResponse (rep : Int) : FraudDetectionResponse :=
  (detect_fraud (plainRequest rep) 0).toOption.getD default

/-!  ## Theorems -/

theorem levCell_zero_left (s t : List Char) (j : Nat) : levCell s t 0 j = j := by
  simp [levCell]

theorem levCell_succ_zero (s t : List Char) (i : Nat) :
    levCell s t (i + 1) 0 = i + 1 := by
  simp [levCell]

theorem levCell_succ_succ (s t : List Char) (i j : Nat) :
    levCell s t (i + 1) (j + 1) =
      if s.getD i ' ' = t.getD j ' ' then levCell s t i j
      else
        min (levCell s t i (j + 1) + 1)
          (min (levCell s t (i + 1) j + 1) (levCell s t i j + 1)) := by
  simp [levCell]

/-- Every matrix cell is at most the larger of its two indices. -/
theorem levCell_le_max (s t : List Char) : ∀ i j, levCell s t i j ≤ max i j := by
  intro i
  induction i with
  | zero => intro j; rw [levCell_zero_left]; omega
  | succ i ih =>
    intro j
    cases j with
    | zero => rw [levCell_succ_zero]; omega
    | succ j =>
      have h := ih j
      rw [levCell_succ_succ]
      split
      · omega
      · omega

/-- Diagonal cells of the self-comparison matrix are zero. -/
theorem levCell_diag (s : List Char) : ∀ i, levCell s s i i = 0 := by
  intro i
  induction i with
  | zero => rw [levCell_zero_left]
  | succ i ih => rw [levCell_succ_succ]; simp [ih]

/-- Swapping the two strings transposes the matrix. -/
theorem levCell_symm (s t : List Char) :
    ∀ i j, levCell s t i j = levCell t s j i := by
  intro i
  induction i with
  | zero =>
    intro j
    cases j with
    | zero => rw [levCell_zero_left, levCell_zero_left]
    | succ j => rw [levCell_zero_left, levCell_succ_zero]
  | succ i ih =>
    intro j
    induction j with
    | zero => rw [levCell_succ_zero, levCell_zero_left]
    | succ j ihj =>
      rw [levCell_succ_succ, levCell_succ_succ]
      by_cases h : s.getD i ' ' = t.getD j ' '
      · rw [if_pos h, if_pos h.symm, ih]
      · rw [if_neg h, if_neg (fun h2 => h h2.symm), ih j, ih (j + 1), ihj]
        omega

theorem levenshtein_distance_le_max (a b : String) :
    levenshtein_distance a b ≤ max a.length b.length :=
  levCell_le_max a.data b.data a.data.length b.data.length

theorem levenshtein_distance_self (a : String) : levenshtein_distance a a = 0 :=
  levCell_diag a.data a.data.length

theorem levenshtein_distance_symm (a b : String) :
    levenshtein_distance a b = levenshtein_distance b a :=
  levCell_symm a.data b.data a.data.length b.data.length

theorem pyShorter_length_le (s1 s2 : String) :
    (pyShorter s1 s2).length ≤ (pyLonger s1 s2).length := by
  unfold pyShorter pyLonger
  split <;> omega

theorem pyLonger_length_ne_zero {s1 s2 : String} (h1 : s1 ≠ "") (h2 : s2 ≠ "") :
    (pyLonger s1 s2).length ≠ 0 := by
  have e1 : s1.length ≠ 0 := fun h => h1 (String.ext (List.length_eq_zero.mp h))
  have e2 : s2.length ≠ 0 := fun h => h2 (String.ext (List.length_eq_zero.mp h))
  unfold pyLonger
  split <;> assumption

/-- Claim C5: for every pair of strings, `calculate_string_similarity` is in
the closed interval `[0, 1]`; and after the empty-string guard the `longer`
string is never empty, so the final division never divides by zero. -/
theorem C5_similarity_bounded (a b : String) :
    (0 ≤ calculate_string_similarity a b ∧ calculate_string_similarity a b ≤ 1)
    ∧ (a ≠ "" → b ≠ "" → (pyLonger a b).length ≠ 0) := by
  refine ⟨?_, fun h1 h2 => pyLonger_length_ne_zero h1 h2⟩
  rw [calculate_string_similarity]
  split
  · norm_num
  · have hdist : levenshtein_distance (pyLonger a b) (pyShorter a b)
        ≤ (pyLonger a b).length := by
      have := levenshtein_distance_le_max (pyLonger a b) (pyShorter a b)
      have := pyShorter_length_le a b
      omega
    split
    · norm_num
    · rename_i hL
      have hLpos : (0 : ℚ) < ((pyLonger a b).length : ℚ) := by
        exact_mod_cast Nat.pos_of_ne_zero hL
      constructor
      · apply div_nonneg _ (le_of_lt hLpos)
        have : ((levenshtein_distance (pyLonger a b) (pyShorter a b) : ℚ))
            ≤ ((pyLonger a b).length : ℚ) := by exact_mod_cast hdist
        linarith
      · rw [div_le_one hLpos]
        have : (0 : ℚ) ≤ (levenshtein_distance (pyLonger a b) (pyShorter a b) : ℚ) := by
          positivity
        linarith

/-- Witness for C5 at the concrete pair `"ab"`, `"cd"`. -/
theorem C5_similarity_bounded_witness :
    (0 ≤ calculate_string_similarity "ab" "cd"
      ∧ calculate_string_similarity "ab" "cd" ≤ 1)
    ∧ (pyLonger "ab" "cd").length ≠ 0 :=
  ⟨(C5_similarity_bounded "ab" "cd").1,
    (C5_similarity_bounded "ab" "cd").2 (by decide) (by decide)⟩

/-- Claim C6: `similarity(s, s) = 1` for non-empty `s`, and either argument
empty (including both) gives exactly `0`. -/
theorem C6_similarity_self_and_empty (s x : String) :
    (s ≠ "" → calculate_string_similarity s s = 1)
    ∧ calculate_string_similarity "" x = 0
    ∧ calculate_string_similarity x "" = 0 := by
  refine ⟨fun hs => ?_, ?_, ?_⟩
  · rw [calculate_string_similarity]
    rw [if_neg (by simp [hs])]
    have hlonger : pyLonger s s = s := by unfold pyLonger; split <;> rfl
    have hshorter : pyShorter s s = s := by unfold pyShorter; split <;> rfl
    rw [hlonger, hshorter]
    have hlen : s.length ≠ 0 := fun h => hs (String.ext (List.length_eq_zero.mp h))
    rw [if_neg hlen, levenshtein_distance_self]
    have : ((s.length : ℚ)) ≠ 0 := by exact_mod_cast hlen
    field_simp
  · rw [calculate_string_similarity, if_pos (Or.inl rfl)]
  · rw [calculate_string_similarity, if_pos (Or.inr rfl)]

/-- Witness for C6 at `s = "abc"`. -/
theorem C6_similarity_self_and_empty_witness :
    calculate_string_similarity "abc" "abc" = 1
    ∧ calculate_string_similarity "" "abc" = 0
    ∧ calculate_string_similarity "abc" "" = 0 :=
  ⟨(C6_similarity_self_and_empty "abc" "x").1 (by decide),
    (C6_similarity_self_and_empty "x" "abc").2.1,
    (C6_similarity_self_and_empty "abc" "x").2.2⟩

/-- Claim C7: `calculate_string_similarity` is symmetric in its arguments. -/
theorem C7_similarity_symm (a b : String) :
    calculate_string_similarity a b = calculate_string_similarity b a := by
  rw [calculate_string_similarity, calculate_string_similarity]
  by_cases hemp : a = "" ∨ b = ""
  · rw [if_pos hemp, if_pos (Or.symm hemp)]
  · rw [if_neg hemp, if_neg (fun h => hemp (Or.symm h))]
    rcases Nat.lt_trichotomy a.length b.length with hlt | heq | hgt
    · have h1 : pyLonger a b = b := by unfold pyLonger; rw [if_neg (by omega)]
      have h2 : pyShorter a b = a := by unfold pyShorter; rw [if_neg (by omega)]
      have h3 : pyLonger b a = b := by unfold pyLonger; rw [if_pos (by omega)]
      have h4 : pyShorter b a = a := by unfold pyShorter; rw [if_pos (by omega)]
      rw [h1, h2, h3, h4]
    · have h1 : pyLonger a b = b := by unfold pyLonger; rw [if_neg (by omega)]
      have h2 : pyShorter a b = a := by unfold pyShorter; rw [if_neg (by omega)]
      have h3 : pyLonger b a = a := by unfold pyLonger; rw [if_neg (by omega)]
      have h4 : pyShorter b a = b := by unfold pyShorter; rw [if_neg (by omega)]
      rw [h1, h2, h3, h4, levenshtein_distance_symm, heq]
    · have h1 : pyLonger a b = a := by unfold pyLonger; rw [if_pos (by omega)]
      have h2 : pyShorter a b = b := by unfold pyShorter; rw [if_pos (by omega)]
      have h3 : pyLonger b a = a := by unfold pyLonger; rw [if_neg (by omega)]
      have h4 : pyShorter b a = b := by unfold pyShorter; rw [if_neg (by omega)]
      rw [h1, h2, h3, h4]

/-- Claim C8: `calculate_text_quality_score` always lies in `[0, 100]`, and
whenever the text is absent (empty) or its whitespace-trimmed length is
below 10 the score is exactly `0`. -/
theorem C8_text_quality_bounded (text : String) :
    (0 ≤ calculate_text_quality_score text
      ∧ calculate_text_quality_score text ≤ 100)
    ∧ ((pyStrip text).length < 10 → calculate_text_quality_score text = 0) := by
  constructor
  · rw [calculate_text_quality_score]
    split
    · norm_num
    · exact ⟨le_max_left _ _, max_le (by norm_num) (min_le_left _ _)⟩
  · intro h
    rw [calculate_text_quality_score, if_pos (Or.inr h)]

/-- Witness for C8 at `text = "hi"` (trimmed length 2). -/
theorem C8_text_quality_bounded_witness :
    (pyStrip "hi").length < 10 ∧ calculate_text_quality_score "hi" = 0 :=
  ⟨by decide, (C8_text_quality_bounded "hi").2 (by decide)⟩

/-- Claim C9: all three sentiment fields are non-negative, and when the
whitespace token count is zero the result is exactly
`{positive := 0, negative := 0, neutral := 1}` (no division happens). -/
theorem C9_sentiment_nonneg (text : String) :
    (0 ≤ (analyze_review_sentiment text).positive
      ∧ 0 ≤ (analyze_review_sentiment text).negative
      ∧ 0 ≤ (analyze_review_sentiment text).neutral)
    ∧ ((pySplitWs text).length = 0
        → analyze_review_sentiment text = ⟨0, 0, 1⟩) := by
  rw [analyze_review_sentiment]
  split
  · exact ⟨⟨le_refl 0, le_refl 0, by norm_num⟩, fun _ => rfl⟩
  · rename_i htot
    refine ⟨⟨?_, ?_, le_max_left _ _⟩, fun h => absurd h htot⟩
    · exact div_nonneg (Nat.cast_nonneg _) (Nat.cast_nonneg _)
    · exact div_nonneg (Nat.cast_nonneg _) (Nat.cast_nonneg _)

/-- Witness for C9 at the empty text (zero tokens). -/
theorem C9_sentiment_nonneg_witness :
    (pySplitWs "").length = 0
    ∧ analyze_review_sentiment "" = ⟨0, 0, 1⟩ :=
  ⟨by decide, (C9_sentiment_nonneg "").2 (by decide)⟩

theorem string_ne_of_length_ne {a b : String} (h : a.length ≠ b.length) :
    a ≠ b := fun he => h (he ▸ rfl)

/-- The business-name mismatch reason is never the amount reason
(their lengths differ whatever the formatted similarity is). -/
theorem invalid_amount_not_mem_nameIssues (r : ReceiptData) (b : BusinessDetails) :
    "Invalid amount in receipt" ∉ nameIssues r b := by
  rw [nameIssues]
  split
  · simp
  · split
    · dsimp only
      split
      · intro hmem
        rw [List.mem_singleton] at hmem
        refine string_ne_of_length_ne ?_ hmem.symm
        rw [String.length_append, String.length_append]
        have e1 : ("Business name mismatch (similarity: " : String).length = 36 := rfl
        have e2 : (")" : String).length = 1 := rfl
        have e3 : ("Invalid amount in receipt" : String).length = 25 := rfl
        omega
      · simp
    · simp

/-- The address mismatch reason is never the amount reason. -/
theorem invalid_amount_not_mem_addressIssues (r : ReceiptData) (b : BusinessDetails) :
    "Invalid amount in receipt" ∉ addressIssues r b := by
  rw [addressIssues]
  split
  · split
    · dsimp only
      split
      · intro hmem
        rw [List.mem_singleton] at hmem
        refine string_ne_of_length_ne ?_ hmem.symm
        rw [String.length_append, String.length_append]
        have e1 : ("Address mismatch (similarity: " : String).length = 30 := rfl
        have e2 : (")" : String).length = 1 := rfl
        have e3 : ("Invalid amount in receipt" : String).length = 25 := rfl
        omega
      · simp
    · simp
  · simp

/-- None of the three date reasons is the amount reason. -/
theorem invalid_amount_not_mem_dateCheck (r : ReceiptData) (now : Int)
    (dl : List String) (h : dateCheck r now = .ok dl) :
    "Invalid amount in receipt" ∉ dl := by
  rw [dateCheck] at h
  split at h
  · cases h; simp
  · split at h
    · cases h; simp
    · split at h
      · cases h; decide
      · split at h
        · cases h
        · split at h
          · cases h; decide
          · split at h
            · cases h; decide
            · cases h; simp

/-- The amount branch fires exactly once for a present negative amount. -/
theorem amountIssues_neg (r : ReceiptData) (a : ℚ) (hamt : r.amount = some a)
    (hneg : a < 0) : amountIssues r = ["Invalid amount in receipt"] := by
  rw [amountIssues, hamt]
  dsimp only
  rw [if_pos ⟨ne_of_lt hneg, le_of_lt hneg⟩]

/-- The amount branch is skipped when the extracted amount is exactly `0`
(`receipt_data.amount` is falsy in Python). -/
theorem amountIssues_zero (r : ReceiptData) (hamt : r.amount = some 0) :
    amountIssues r = [] := by
  rw [amountIssues, hamt]
  dsimp only
  rw [if_neg (by simp)]

/-- Claim C1 (code bug): a receipt date written with a trailing `Z` — which
the claim says is accepted as a UTC offset without aborting scoring — makes
`validate_receipt_consistency` raise: `fromisoformat` yields an
offset-aware datetime, comparing it with the naive `datetime.now()` raises
`TypeError`, which `except ValueError` does not catch, so `detect_fraud`
aborts with the generic HTTP-500 failure instead of scoring. -/
theorem C1_trailing_z_aborts_scoring :
    zDateReceipt.date = some "2024-01-02T00:00:00Z"
    ∧ validate_receipt_consistency zDateReceipt acmeBusiness 0 =
        .error "TypeError: cannot compare offset-naive and offset-aware datetimes"
    ∧ detect_fraud ⟨"", zDateReceipt, acmeBusiness, 50⟩ 0 =
        .error ("Fraud detection failed: "
          ++ "TypeError: cannot compare offset-naive and offset-aware datetimes") :=
  ⟨rfl, rfl, rfl⟩

/-- Counterexample to claim C2: an extracted amount of exactly `0` is
present and `≤ 0`, yet the Python truthiness guard
`if receipt_data.amount and ...` treats `0.0` as absent, so no
"Invalid amount in receipt" reason is emitted at all. -/
theorem C2_counterexample_zero_amount :
    zeroAmountReceipt.amount = some 0
    ∧ (0 : ℚ) ≤ 0
    ∧ validate_receipt_consistency zeroAmountReceipt acmeBusiness 0 = .ok [] :=
  ⟨rfl, le_refl 0, rfl⟩

/-- Claim C2 as amended: for every receipt whose amount is present and
strictly negative, `validate_receipt_consistency` emits
"Invalid amount in receipt" exactly once (an amount of exactly `0` is falsy
in the guard and emits nothing). -/
theorem C2_negative_amount_reason_once (r : ReceiptData) (b : BusinessDetails)
    (now : Int) (a : ℚ) (issues : List String) (hamt : r.amount = some a)
    (hneg : a < 0)
    (hval : validate_receipt_consistency r b now = .ok issues) :
    issues.count "Invalid amount in receipt" = 1 := by
  rw [validate_receipt_consistency] at hval
  rcases hd : dateCheck r now with e | dl <;> rw [hd] at hval
  · cases hval
  · rw [Except.ok.injEq] at hval
    subst hval
    rw [List.count_append, List.count_append, List.count_append]
    rw [List.count_eq_zero.mpr (invalid_amount_not_mem_nameIssues r b)]
    rw [List.count_eq_zero.mpr (invalid_amount_not_mem_addressIssues r b)]
    rw [List.count_eq_zero.mpr (invalid_amount_not_mem_dateCheck r now dl hd)]
    rw [amountIssues_neg r a hamt hneg]
    rfl

/-- Witness for (amended) C2: `amount = -5.0`, spec scenario 5. -/
theorem C2_negative_amount_reason_once_witness :
    negAmountReceipt.amount = some (-5) ∧ (-5 : ℚ) < 0
    ∧ (["Invalid amount in receipt"] : List String).count
        "Invalid amount in receipt" = 1 :=
  ⟨rfl, by norm_num,
    C2_negative_amount_reason_once negAmountReceipt acmeBusiness 0 (-5)
      ["Invalid amount in receipt"] rfl (by norm_num) rfl⟩

/-- Claim C3: the verdict is exactly `riskScore > 60` and the confidence is
exactly `min(riskScore / 100, 1)`, with no extra clamping to the verdict
threshold; in particular a risk score of exactly 61 gives a fraudulent
verdict with confidence `0.61`. -/
theorem C3_verdict_and_confidence (request : FraudDetectionRequest) (now : Int)
    (resp : FraudDetectionResponse)
    (h : detect_fraud request now = .ok resp) :
    (resp.isFraudulent = true ↔ resp.riskScore > 60)
    ∧ resp.confidence = min ((resp.riskScore : ℚ) / 100) 1
    ∧ (resp.riskScore = 61
        → resp.isFraudulent = true ∧ resp.confidence = 61 / 100) := by
  rw [detect_fraud] at h
  rcases hval : validate_receipt_consistency request.receipt_data
      request.business_details now with e | receipt_issues <;>
    rw [hval] at h <;> dsimp only at h
  · exact Except.noConfusion h
  · rw [Except.ok.injEq] at h
    subst h
    refine ⟨by simp, rfl, fun h61 => ?_⟩
    dsimp only at h61 ⊢
    rw [h61]
    exact ⟨by decide, by norm_num [min_def]⟩

/-- Witness for C3 at the concrete request `plainRequest 50` (risk 60). -/
theorem C3_verdict_and_confidence_witness :
    ((plainResponse 50).isFraudulent = true ↔ (plainResponse 50).riskScore > 60)
    ∧ (plainResponse 50).confidence
        = min (((plainResponse 50).riskScore : ℚ) / 100) 1 :=
  ⟨(C3_verdict_and_confidence (plainRequest 50) 0 (plainResponse 50) rfl).1,
    (C3_verdict_and_confidence (plainRequest 50) 0 (plainResponse 50) rfl).2.1⟩

/-- Claim C4: with the review text, receipt and business identity fixed, a
reputation below 30 yields a risk score exactly 20 higher than a reputation
of at least 30, and exactly one extra (low-reputation) reason. -/
theorem C4_reputation_contributes_20 (text : String) (rd : ReceiptData)
    (bd : BusinessDetails) (now : Int) (rep1 rep2 : Int)
    (o1 o2 : FraudDetectionResponse) (h1 : rep1 < 30) (h2 : 30 ≤ rep2)
    (hd1 : detect_fraud ⟨text, rd, bd, rep1⟩ now = .ok o1)
    (hd2 : detect_fraud ⟨text, rd, bd, rep2⟩ now = .ok o2) :
    o1.riskScore = o2.riskScore + 20
    ∧ o1.fraudReasons.length = o2.fraudReasons.length + 1 := by
  have h2' : ¬(rep2 < 30) := not_lt.mpr h2
  rw [detect_fraud] at hd1 hd2
  dsimp only at hd1 hd2
  rcases hval : validate_receipt_consistency rd bd now with e | issues <;>
    rw [hval] at hd1 hd2 <;> dsimp only at hd1 hd2
  · exact Except.noConfusion hd1
  · rw [Except.ok.injEq] at hd1 hd2
    subst hd1
    subst hd2
    dsimp only
    simp only [eq_true h1, eq_false h2', if_true, if_false,
      List.length_append, apply_ite List.length, List.length_singleton,
      List.length_nil]
    omega

/-- Witness for C4: reputations 10 and 50 on the minimal request. -/
theorem C4_reputation_contributes_20_witness :
    (10 : Int) < 30 ∧ (30 : Int) ≤ 50
    ∧ (plainResponse 10).riskScore = (plainResponse 50).riskScore + 20
    ∧ (plainResponse 10).fraudReasons.length
        = (plainResponse 50).fraudReasons.length + 1 :=
  ⟨by decide, by decide,
    (C4_reputation_contributes_20 "" {} acmeBusiness 0 10 50
      (plainResponse 10) (plainResponse 50) (by decide) (by decide) rfl rfl).1,
    (C4_reputation_contributes_20 "" {} acmeBusiness 0 10 50
      (plainResponse 10) (plainResponse 50) (by decide) (by decide) rfl rfl).2⟩

/-- Claim C10: every reason appended contributes between 10 and 25 risk
points, so `10·len(fraudReasons) ≤ riskScore ≤ 25·len(fraudReasons)`;
hence `riskScore = 0` exactly when the reason list is empty, and a
fraudulent verdict implies a non-empty reason list. -/
theorem C10_risk_reason_invariant (request : FraudDetectionRequest) (now : Int)
    (resp : FraudDetectionResponse)
    (h : detect_fraud request now = .ok resp) :
    (10 * resp.fraudReasons.length ≤ resp.riskScore
      ∧ resp.riskScore ≤ 25 * resp.fraudReasons.length)
    ∧ (resp.riskScore = 0 ↔ resp.fraudReasons = [])
    ∧ (resp.isFraudulent = true → resp.fraudReasons ≠ []) := by
  rw [detect_fraud] at h
  rcases hval : validate_receipt_consistency request.receipt_data
      request.business_details now with e | receipt_issues <;>
    rw [hval] at h <;> dsimp only at h
  · exact Except.noConfusion h
  · rw [Except.ok.injEq] at h
    subst h
    dsimp only
    simp only [decide_eq_true_eq, ne_eq, ← List.length_eq_zero,
      List.length_append, apply_ite List.length, List.length_singleton,
      List.length_nil]
    split_ifs <;>
      first
        | omega
        | exact ⟨⟨by omega, by omega⟩, by simp, fun _ => by simp⟩

/-- Witness for C10 at the concrete request `plainRequest 10` (risk 80,
fraudulent, four reasons). -/
theorem C10_risk_reason_invariant_witness :
    (10 * (plainResponse 10).fraudReasons.length ≤ (plainResponse 10).riskScore
      ∧ (plainResponse 10).riskScore
          ≤ 25 * (plainResponse 10).fraudReasons.length)
    ∧ ((plainResponse 10).riskScore = 0 ↔ (plainResponse 10).fraudReasons = [])
    ∧ ((plainResponse 10).isFraudulent = true
        → (plainResponse 10).fraudReasons ≠ []) :=
  C10_risk_reason_invariant (plainRequest 10) 0 (plainResponse 10) rfl

end CrediScore
